import Mathlib

/-!
Verification of the KrishiMitra agricultural-advisory platform against its
natural-language specification.

Each definition below is a shallow embedding of a function or Pydantic model
of the Python source tree (`src/krishimitra/...`).  Python strings are
modeled as `List Char`, Python floats as `ℚ` (the code never relies on
rounding behavior in the properties treated here), Python `datetime`/`date`
values as opaque integer codes ordered as the originals, and fallible
construction/parsing as `Bool` validity predicates or `Option`/`Except`
results.  Serialization layers that are value-preserving bijections in the
source (ISO timestamp round-trips, `str`/`float` numeric round-trips,
urlsafe base64 transport) are modeled as the identity.
-/

namespace KM

/-! ## core/utils/validation.py : phone validation -/

/-- Characters kept by the cleaning step of `validate_phone_number`:
the source removes every character that is not a digit or a plus sign
(`re.sub` with the class of digits and plus). -/
def phoneKeep (c : Char) : Bool := c.isDigit || c == '+'

/-- Cleaning step of `validate_phone_number`. -/
def phoneClean (p : List Char) : List Char := p.filter phoneKeep

/-- The mobile-part pattern of `validate_phone_number`: one digit in 6-9
followed by exactly nine digits. -/
def isMobilePart : List Char → Bool
  | [] => false
  | c :: rest => ('6' ≤ c && c ≤ '9') && rest.length == 9 && rest.all Char.isDigit

/-- Branch selection of `validate_phone_number` over the cleaned string,
in source order: a literal plus-9-1 head, a 9-1 head at length 12,
a 0 head at length 11, or a bare 10-character string. -/
def phoneMobileCandidate (cleaned : List Char) : Option (List Char) :=
  if cleaned.take 3 = ['+', '9', '1'] then some (cleaned.drop 3)
  else if cleaned.take 2 = ['9', '1'] && cleaned.length == 12 then some (cleaned.drop 2)
  else if cleaned.take 1 = ['0'] && cleaned.length == 11 then some (cleaned.drop 1)
  else if cleaned.length == 10 then some cleaned
  else none

/-- Embedding of `validate_phone_number` (default country code, which the
source fixes to plus-9-1). -/
def validate_phone_number (phone : List Char) : Bool × Option (List Char) :=
  if phone = [] then (false, none)
  else
    match phoneMobileCandidate (phoneClean phone) with
    | none => (false, none)
    | some m => if isMobilePart m then (true, some (['+', '9', '1'] ++ m)) else (false, none)

/-- Spec-side shape predicate for the phone claim: the cleaned input is the
10-digit mobile number bare, or prefixed with plus-9-1, with 9-1, or with 0.
This definition follows the specification's words, to be compared with the
source embedding above. -/
def phoneSpecShape (cleaned m : List Char) : Prop :=
  cleaned = ['+', '9', '1'] ++ m ∨ cleaned = ['9', '1'] ++ m ∨
    cleaned = '0' :: m ∨ cleaned = m

/-! ## core/utils/validation.py : Aadhaar validation -/

/-- Verhoeff multiplication table of `_verify_aadhaar_checksum`. -/
def verhoeffD : List (List Nat) :=
  [[0, 1, 2, 3, 4, 5, 6, 7, 8, 9],
   [1, 2, 3, 4, 0, 6, 7, 8, 9, 5],
   [2, 3, 4, 0, 1, 7, 8, 9, 5, 6],
   [3, 4, 0, 1, 2, 8, 9, 5, 6, 7],
   [4, 0, 1, 2, 3, 9, 5, 6, 7, 8],
   [5, 9, 8, 7, 6, 0, 4, 3, 2, 1],
   [6, 5, 9, 8, 7, 1, 0, 4, 3, 2],
   [7, 6, 5, 9, 8, 2, 1, 0, 4, 3],
   [8, 7, 6, 5, 9, 3, 2, 1, 0, 4],
   [9, 8, 7, 6, 5, 4, 3, 2, 1, 0]]

/-- Verhoeff permutation table of `_verify_aadhaar_checksum`. -/
def verhoeffP : List (List Nat) :=
  [[0, 1, 2, 3, 4, 5, 6, 7, 8, 9],
   [1, 5, 7, 6, 2, 8, 3, 0, 9, 4],
   [5, 8, 0, 3, 7, 9, 6, 1, 4, 2],
   [8, 9, 1, 6, 0, 4, 3, 5, 2, 7],
   [9, 4, 5, 3, 1, 2, 6, 8, 7, 0],
   [4, 2, 8, 6, 5, 7, 3, 9, 0, 1],
   [2, 7, 9, 3, 8, 0, 6, 4, 1, 5],
   [7, 0, 4, 6, 9, 1, 3, 2, 5, 8]]

/-- Row/column lookup in a Verhoeff table. -/
def tableAt (t : List (List Nat)) (r c : Nat) : Nat := (t.getD r []).getD c 0

/-- The checksum walk of `_verify_aadhaar_checksum`: fold over the digits
given in walk order (the source enumerates the reversed digit string),
with the permutation column cycling through position mod 8. -/
def verhoeffWalk : Nat → Nat → List Nat → Nat
  | c, _, [] => c
  | c, i, d :: ds => verhoeffWalk (tableAt verhoeffD c (tableAt verhoeffP (i % 8) d)) (i + 1) ds

/-- Embedding of `_verify_aadhaar_checksum` on a digit list. -/
def verify_aadhaar_checksum (digits : List Nat) : Bool :=
  verhoeffWalk 0 0 digits.reverse == 0

/-- Numeric value of a decimal digit character. -/
def charDigit (c : Char) : Nat := c.toNat - '0'.toNat

/-- The all-identical test of `validate_aadhaar_number` (a one-element
character set) on a nonempty string. -/
def allSameChar : List Char → Bool
  | [] => false
  | c :: rest => rest.all (· == c)

/-- Embedding of `validate_aadhaar_number`: strip non-digits, require exactly
12 digits, reject an all-identical string, then require the Verhoeff walk to
reduce to 0. -/
def validate_aadhaar_number (aadhaar : List Char) : Bool × Option (List Char) :=
  if aadhaar = [] then (false, none)
  else if (aadhaar.filter Char.isDigit).length ≠ 12 then (false, none)
  else if allSameChar (aadhaar.filter Char.isDigit) then (false, none)
  else if ! verify_aadhaar_checksum ((aadhaar.filter Char.isDigit).map charDigit) then
    (false, none)
  else (true, some (aadhaar.filter Char.isDigit))

/-! ## core/utils/formatting.py : truncate_text -/

/-- Embedding of the rfind-a-space step of `truncate_text` over a prefix
segment of the text: the formula yields the index of the last space of the
segment, and -1 when the segment has none (`indexOf` then returns the
segment length, so the difference is -1, matching Python's rfind). -/
def rfindSpace (seg : List Char) : Int :=
  (seg.length : Int) - 1 - (seg.reverse.indexOf ' ' : Int)

/-- Embedding of `truncate_text`: return short text unchanged; otherwise cut
at the last word boundary past the midpoint when one exists, else at
max_length minus the suffix length, appending the suffix; when the suffix
does not fit, hard-cut at max_length. -/
def truncate_text (text : List Char) (maxLength : Nat) (suffix : List Char) : List Char :=
  if text = [] || text.length ≤ maxLength then text
  else if suffix.length < maxLength then
    if ((maxLength / 2 : Nat) : Int) < rfindSpace (text.take (maxLength - suffix.length)) then
      text.take (rfindSpace (text.take (maxLength - suffix.length))).toNat ++ suffix
    else
      text.take (maxLength - suffix.length) ++ suffix
  else text.take maxLength

/-! ## core/security/encryption.py : DataMasking.mask_phone_number, and
core/utils/encryption.py : mask_sensitive_data, phone branch -/

/-- Four mask stars. -/
def maskStars : List Char := ['*', '*', '*', '*']

/-- Embedding of `DataMasking.mask_phone_number`: four stars followed by the
last four characters; inputs shorter than four characters mask entirely. -/
def mask_phone_number (phone : List Char) : List Char :=
  if phone = [] || phone.length < 4 then maskStars
  else maskStars ++ phone.drop (phone.length - 4)

/-- Embedding of the phone branch of `mask_sensitive_data` in
core/utils/encryption.py: a non-empty input of length at least 10 keeps
everything but the final four characters and appends four stars; a shorter
input masks entirely; an empty input yields the empty string. -/
def mask_sensitive_data_phone (data : List Char) : List Char :=
  if data = [] then []
  else if 10 ≤ data.length then data.take (data.length - 4) ++ maskStars
  else maskStars

/-! ## api/v1/whatsapp.py : verify_webhook, with the
whatsapp_verify_token setting of core/config.py -/

/-- Observable result of the webhook verification endpoint: a 200 response
whose body is the challenge string, or a 403 error. -/
inductive VerifyResult
  | ok (challenge : String)
  | forbidden
deriving DecidableEq

/-- Python equality between a string and an optional string: a string never
equals None, so comparison with an absent setting is always false. -/
def pyStrEqOpt (s : String) (t : Option String) : Bool :=
  match t with
  | none => false
  | some u => s == u

/-- Embedding of `verify_webhook`, parameterized by the configured
whatsapp_verify_token setting. -/
def verify_webhook (cfgToken : Option String)
    (hubMode hubChallenge hubVerifyToken : String) : VerifyResult :=
  if hubMode == "subscribe" && pyStrEqOpt hubVerifyToken cfgToken then
    VerifyResult.ok hubChallenge
  else
    VerifyResult.forbidden

/-- Default of `Settings.whatsapp_verify_token` in core/config.py: the
configuration provides no value. -/
def defaultWhatsappVerifyToken : Option String := none

/-! ## api/v1/farmers.py : request models, validation, and the
create/get handlers -/

namespace Api

/-- The pattern on FarmerProfile.phone_number in api/v1/farmers.py: an
optional plus sign, a digit 1-9, then one to fourteen digits. -/
def matchesE164 : List Char → Bool
  | '+' :: c :: rest =>
    ('1' ≤ c && c ≤ '9') && (1 ≤ rest.length && rest.length ≤ 14) && rest.all Char.isDigit
  | c :: rest =>
    ('1' ≤ c && c ≤ '9') && (1 ≤ rest.length && rest.length ≤ 14) && rest.all Char.isDigit
  | [] => false

/-- The Indian mobile pattern of ContactInfo.primary_phone in
models/farmer.py (also PersonalInfo.phone_number in core/models/farmer.py):
a plus sign, 9, 1, a digit 6-9, then nine digits. -/
def matchesIndianMobile : List Char → Bool
  | '+' :: '9' :: '1' :: rest => isMobilePart rest
  | _ => false

/-- Location sub-model of the farmers router. -/
structure Location where
  state : String
  district : String
  village : String
  latitude : Option ℚ
  longitude : Option ℚ
deriving DecidableEq

/-- CropInfo sub-model of the farmers router; dates are opaque codes. -/
structure CropInfo where
  crop_type : String
  area : ℚ
  planting_date : Option Int
  expected_harvest : Option Int
deriving DecidableEq

/-- FarmDetails sub-model of the farmers router. -/
structure FarmDetails where
  total_land_area : ℚ
  soil_type : String
  irrigation_type : String
  crops : List CropInfo
deriving DecidableEq

/-- Preferences sub-model of the farmers router. -/
structure Preferences where
  organic_farming : Bool
  risk_tolerance : String
  preferred_language : String
deriving DecidableEq

/-- Request body of POST /farmers. -/
structure FarmerProfile where
  name : String
  phone_number : String
  location : Location
  farm_details : FarmDetails
  preferences : Preferences
deriving DecidableEq

/-- Response body of the farmers endpoints. -/
structure FarmerProfileResponse where
  farmer_id : String
  name : String
  phone_number : String
  location : Location
  farm_details : FarmDetails
  preferences : Preferences
  created_at : Int
  updated_at : Int
deriving DecidableEq

/-- Field constraint of CropInfo: area strictly positive. -/
def validCropInfo (c : CropInfo) : Bool := decide (0 < c.area)

/-- Field constraints of FarmDetails: positive total area, valid crops. -/
def validFarmDetails (fd : FarmDetails) : Bool :=
  decide (0 < fd.total_land_area) && fd.crops.all validCropInfo

/-- Field constraints of Preferences: the two pattern-restricted fields. -/
def validPreferences (pr : Preferences) : Bool :=
  (pr.risk_tolerance == "low" || pr.risk_tolerance == "medium" ||
    pr.risk_tolerance == "high") &&
  (pr.preferred_language == "hi" || pr.preferred_language == "ta" ||
    pr.preferred_language == "te" || pr.preferred_language == "bn" ||
    pr.preferred_language == "mr" || pr.preferred_language == "gu" ||
    pr.preferred_language == "pa")

/-- Acceptance predicate of the POST /farmers request validation: the
conjunction of every Pydantic field constraint of FarmerProfile (the other
fields are unconstrained strings and optional floats). -/
def validFarmerProfile (fp : FarmerProfile) : Bool :=
  matchesE164 fp.phone_number.toList && validFarmDetails fp.farm_details &&
    validPreferences fp.preferences

/-- A crop as stored by create_farmer_profile in the DynamoDB item: only the
crop type and the area are written. -/
structure StoredCrop where
  cropType : String
  area : ℚ
deriving DecidableEq

/-- The DynamoDB item written by create_farmer_profile.  The string
serialization of numbers and timestamps used on the wire round-trips
exactly (str/float and isoformat/fromisoformat are mutually inverse on
these values), so values are stored directly. -/
structure StoredItem where
  farmerId : String
  itemName : String
  phoneNumber : String
  locState : String
  locDistrict : String
  locVillage : String
  locLatitude : Option ℚ
  locLongitude : Option ℚ
  totalLandArea : ℚ
  soilType : String
  irrigationType : String
  storedCrops : List StoredCrop
  organicFarming : Bool
  riskTolerance : String
  preferredLanguage : String
  createdAt : Int
  updatedAt : Int
deriving DecidableEq

/-- Item construction of create_farmer_profile: both timestamps are the same
current time; the optional coordinates are written only when present; each
crop keeps only cropType and area. -/
def createItem (p : FarmerProfile) (farmerId : String) (now : Int) : StoredItem :=
  ⟨farmerId, p.name, p.phone_number,
    p.location.state, p.location.district, p.location.village,
    p.location.latitude, p.location.longitude,
    p.farm_details.total_land_area, p.farm_details.soil_type,
    p.farm_details.irrigation_type,
    p.farm_details.crops.map (fun c => ⟨c.crop_type, c.area⟩),
    p.preferences.organic_farming, p.preferences.risk_tolerance,
    p.preferences.preferred_language,
    now, now⟩

/-- The 201 response of create_farmer_profile: it echoes the submitted
profile with the generated id and the shared current time. -/
def createResponse (p : FarmerProfile) (farmerId : String) (now : Int) :
    FarmerProfileResponse :=
  ⟨farmerId, p.name, p.phone_number, p.location, p.farm_details,
    p.preferences, now, now⟩

/-- Store state after the conditional put of create_farmer_profile against a
table not containing the fresh id: exactly the created item is present. -/
def storeAfterCreate (item : StoredItem) : String → Option StoredItem :=
  fun fid => if fid = item.farmerId then some item else none

/-- Crop parsing of get_farmer_profile: only cropType and area are read back
and the CropInfo date fields take their None defaults. -/
def parseStoredCrop (c : StoredCrop) : CropInfo :=
  ⟨c.cropType, c.area, none, none⟩

/-- Embedding of get_farmer_profile over a store state: 404 when the id is
absent, otherwise the item parsed back into a response. -/
def get_farmer_profile (store : String → Option StoredItem) (farmerId : String) :
    Except Nat FarmerProfileResponse :=
  match store farmerId with
  | none => Except.error 404
  | some item =>
    Except.ok
      ⟨farmerId, item.itemName, item.phoneNumber,
        ⟨item.locState, item.locDistrict, item.locVillage,
          item.locLatitude, item.locLongitude⟩,
        ⟨item.totalLandArea, item.soilType, item.irrigationType,
          item.storedCrops.map parseStoredCrop⟩,
        ⟨item.organicFarming, item.riskTolerance, item.preferredLanguage⟩,
        item.createdAt, item.updatedAt⟩

/-- Date erasure on a submitted crop: what survives the stored envelope. -/
def eraseCropDates (c : CropInfo) : CropInfo :=
  ⟨c.crop_type, c.area, none, none⟩

end Api

/-! ## core/models/farmer.py : the first Pydantic model set -/

namespace CoreModels

/-- Irrigation types of core/models/farmer.py. -/
inductive IrrigationType
  | drip | sprinkler | flood | rainfed | canal | borewell
deriving DecidableEq

/-- Soil types of core/models/farmer.py. -/
inductive SoilType
  | alluvial | black_cotton | red_laterite | sandy | clay | loamy | saline
deriving DecidableEq

/-- CropInfo of core/models/farmer.py; dates are opaque ordered codes. -/
structure CropInfo where
  crop_type : String
  area : ℚ
  planting_date : Option Int
  expected_harvest : Option Int
  variety : Option String
deriving DecidableEq

/-- Construction-time validity of CropInfo: the constr/confloat field
constraints plus the harvest-after-planting validator (strings are modeled
as already whitespace-stripped). -/
def validCropInfo (c : CropInfo) : Bool :=
  (1 ≤ c.crop_type.length && c.crop_type.length ≤ 50) &&
  (decide (0 < c.area) && decide (c.area ≤ 10000)) &&
  (match c.planting_date, c.expected_harvest with
   | some p, some h => decide (p < h)
   | _, _ => true) &&
  (match c.variety with
   | some v => v.length ≤ 100
   | none => true)

/-- FarmDetails of core/models/farmer.py. -/
structure FarmDetails where
  total_land_area : ℚ
  soil_type : SoilType
  irrigation_type : IrrigationType
  crops : List CropInfo
  water_source : Option String
  farm_equipment : List String
deriving DecidableEq

/-- Sum of the declared crop areas. -/
def cropsAreaSum (crops : List CropInfo) : ℚ := (crops.map (fun c => c.area)).sum

/-- The optional water-source length bound of FarmDetails. -/
def validWaterSource : Option String → Bool
  | some w => w.length ≤ 100
  | none => true

/-- Construction-time validity of FarmDetails: the confloat bound on the
total area, per-crop validity, the optional water-source length bound, and
the validate_total_crop_area validator, which fires only on a non-empty
crop list and rejects a crop-area sum exceeding the total land area. -/
def validFarmDetails (fd : FarmDetails) : Bool :=
  (decide (0 < fd.total_land_area) && decide (fd.total_land_area ≤ 10000)) &&
  fd.crops.all validCropInfo &&
  validWaterSource fd.water_source &&
  (fd.crops.isEmpty || decide (cropsAreaSum fd.crops ≤ fd.total_land_area))

end CoreModels

/-! ## models/farmer.py : the second Pydantic model set -/

namespace FarmerModels

/-- Measurement of models/base.py: a value with a unit. -/
structure Measurement where
  value : ℚ
  unit : String
  precision : Option Int
deriving DecidableEq

/-- MonetaryAmount of models/base.py (currency identified by its code). -/
structure MonetaryAmount where
  amount : ℚ
  currencyCode : String
deriving DecidableEq

/-- Soil types of models/farmer.py. -/
inductive SoilType
  | alluvial | black_cotton | red_laterite | sandy | clay | loamy | saline
  | peaty | mountain
deriving DecidableEq

/-- Irrigation types of models/farmer.py. -/
inductive IrrigationType
  | rainfed | canal | tubewell | well | drip | sprinkler | flood | furrow
deriving DecidableEq

/-- Crop categories of models/farmer.py. -/
inductive CropCategory
  | cereals | pulses | oilseeds | cash_crops | vegetables | fruits | spices
  | fodder | flowers
deriving DecidableEq

/-- Crop seasons of models/farmer.py. -/
inductive CropSeason
  | kharif | rabi | zaid | perennial
deriving DecidableEq

/-- CropInfo of models/farmer.py; dates are opaque ordered codes. -/
structure CropInfo where
  crop_name : String
  crop_variety : Option String
  category : CropCategory
  season : CropSeason
  area : Measurement
  planting_date : Option Int
  expected_harvest_date : Option Int
  yield_expectation : Option Measurement
  input_cost : Option MonetaryAmount
  market_price_expectation : Option MonetaryAmount
  is_organic : Bool
  irrigation_method : Option IrrigationType
deriving DecidableEq

/-- MonetaryAmount field constraint: a non-negative amount. -/
def validMonetaryAmount (m : MonetaryAmount) : Bool := decide (0 ≤ m.amount)

/-- Construction-time validity of this CropInfo: the harvest-after-planting
validator and the non-negative bounds of the optional monetary fields; the
remaining fields carry no constraints. -/
def validCropInfo (c : CropInfo) : Bool :=
  (match c.planting_date, c.expected_harvest_date with
   | some p, some h => decide (p < h)
   | _, _ => true) &&
  (match c.input_cost with
   | some m => validMonetaryAmount m
   | none => true) &&
  (match c.market_price_expectation with
   | some m => validMonetaryAmount m
   | none => true)

/-- FarmDetails of models/farmer.py. -/
structure FarmDetails where
  total_land_area : Measurement
  cultivable_area : Option Measurement
  irrigated_area : Option Measurement
  soil_type : SoilType
  soil_ph : Option ℚ
  soil_health_card_number : Option String
  primary_irrigation_source : IrrigationType
  water_availability : Option String
  farm_equipment : List String
  storage_facilities : List String
  crops : List CropInfo
  livestock : Option (List (String × Int))
  farm_certification : List String
deriving DecidableEq

/-- Construction-time validity of this FarmDetails: the soil-pH bounds, the
cultivable-within-total and irrigated-within-cultivable-or-total
validators, and per-crop validity.  No validator relates the crop areas to
the total land area in this model set. -/
def validFarmDetails (fd : FarmDetails) : Bool :=
  (match fd.soil_ph with
   | some ph => decide (0 ≤ ph) && decide (ph ≤ 14)
   | none => true) &&
  (match fd.cultivable_area with
   | some c => decide (c.value ≤ fd.total_land_area.value)
   | none => true) &&
  (match fd.irrigated_area, fd.cultivable_area with
   | some i, some c => decide (i.value ≤ c.value)
   | some i, none => decide (i.value ≤ fd.total_land_area.value)
   | none, _ => true) &&
  fd.crops.all validCropInfo

/-- Sum of the declared crop areas (the Measurement values). -/
def cropsAreaSum (crops : List CropInfo) : ℚ := (crops.map (fun c => c.area.value)).sum

end FarmerModels

/-! ## core/security/encryption.py : EncryptionService, encrypt_dict and
decrypt_dict -/

namespace Enc

/-- Contract of the third-party Fernet symmetric cipher as documented by the
cryptography library: decrypting with the encrypting key recovers the
message, and decrypting with a different key fails (InvalidToken), modeled
as none.  The urlsafe-base64 transport encoding the service applies on top
is a bijection on ciphertexts and is modeled as the identity. -/
structure FernetScheme (K C : Type) where
  enc : K → String → C
  dec : K → C → Option String
  dec_enc : ∀ k m, dec k (enc k m) = some m
  dec_wrong : ∀ k k' m, k ≠ k' → dec k' (enc k m) = none

/-- Python values appearing as dictionary entries in the claims: strings and
integers. -/
inductive PlainVal
  | vstr (s : String)
  | vint (n : Int)
deriving DecidableEq

/-- The third-party json library boundary of decrypt_dict.  The decrypted
string is handed to json.loads, which either returns a parsed value (of
some type J of JSON values) or raises JSONDecodeError; the embedding does
not fix that parser but quantifies over it, so theorems about the
successful-parse-fails path hold for the real json.loads by
instantiation. -/
structure JsonLib (J : Type) where
  loads : String → Option J

/-- Values produced by decrypt_dict: the JSON-parsed value when the
decrypted string parses, the decrypted plain value when it does not, or
the untouched input value when decryption fails. -/
inductive DecVal (J C : Type)
  | parsed (j : J)
  | plain (v : PlainVal)
  | raw (c : C)
deriving DecidableEq

/-- Numeric value of a decimal digit string. -/
def digitsToNat (ds : List Char) : Nat :=
  ds.foldl (fun acc c => acc * 10 + charDigit c) 0

/-- Digit-literal test for the concrete parser instance below: non-empty,
all digits, and no leading zero except for the literal 0 itself. -/
def jsonIntLiteral (ds : List Char) : Bool :=
  !ds.isEmpty && ds.all Char.isDigit && (ds == ['0'] || !(ds.headD '0' == '0'))

/-- Optionally signed decimal integer literals, as parsed by the concrete
JsonLib instance below. -/
def intLoads (s : List Char) : Option Int :=
  match s with
  | '-' :: ds => if jsonIntLiteral ds then some (-(digitsToNat ds : Int)) else none
  | ds => if jsonIntLiteral ds then some (digitsToNat ds : Int) else none

/-- Concrete JsonLib instance used only to evaluate the pipeline at
concrete inputs in the closed theorems: it parses integer literals and
fails otherwise, and agrees with json.loads on every string those
theorems evaluate it at (123 parses to the number 123; x does not
parse). -/
def intJsonLib : JsonLib Int := ⟨fun s => intLoads s.toList⟩

/-- Embedding of EncryptionService.encrypt on the values above: a string is
encrypted as is, an integer through its string form (str(data)). -/
def encryptVal {K C : Type} (S : FernetScheme K C) (k : K) : PlainVal → C
  | .vstr s => S.enc k s
  | .vint n => S.enc k (toString n)

/-- Embedding of EncryptionService.decrypt: it fails (EncryptionError)
exactly when the underlying Fernet decryption fails. -/
def decryptStr {K C : Type} (S : FernetScheme K C) (k : K) (c : C) : Option String :=
  S.dec k c

/-- Per-value step of decrypt_dict: decrypt, then attempt a JSON parse of
the decrypted string, falling back to the string itself; on decryption
failure the original encrypted value is kept. -/
def decryptDictVal {K C J : Type} (S : FernetScheme K C) (L : JsonLib J)
    (k : K) (c : C) : DecVal J C :=
  match S.dec k c with
  | some s =>
    match L.loads s with
    | some j => DecVal.parsed j
    | none => DecVal.plain (PlainVal.vstr s)
  | none => DecVal.raw c

/-- Embedding of encrypt_dict: encrypt every value, preserving keys. -/
def encrypt_dict {K C : Type} (S : FernetScheme K C) (k : K)
    (d : List (String × PlainVal)) : List (String × C) :=
  d.map (fun kv => (kv.1, encryptVal S k kv.2))

/-- Embedding of decrypt_dict. -/
def decrypt_dict {K C J : Type} (S : FernetScheme K C) (L : JsonLib J)
    (k : K) (d : List (String × C)) : List (String × DecVal J C) :=
  d.map (fun kv => (kv.1, decryptDictVal S L k kv.2))

/-- The original dictionary viewed in the result type of decrypt_dict, for
the deep-equality comparison. -/
def plainDict {J C : Type} (d : List (String × PlainVal)) :
    List (String × DecVal J C) :=
  d.map (fun kv => (kv.1, DecVal.plain kv.2))

/-- Concrete instantiation of the Fernet contract, used to evaluate the
pipeline at concrete inputs: a ciphertext records the key and the message,
and decryption checks the key. -/
def pairScheme : FernetScheme Nat (Nat × String) :=
  ⟨fun k m => (k, m),
   fun k c => if c.1 = k then some c.2 else none,
   fun _ _ => by simp,
   fun k k' m h => by simp [h]⟩

end Enc

/-! ## Concrete sample values used by the closed theorems -/

/-- POST body whose crop declares planting and harvest dates, exhibiting
the date-dropping of the stored envelope. -/
def datedCropProfile : Api.FarmerProfile :=
  ⟨"Ravi", "+919876543210",
    ⟨"Karnataka", "Mysuru", "Hosahalli", some 12, some 76⟩,
    ⟨2, "loamy", "drip", [⟨"rice", 1, some 100, some 200⟩]⟩,
    ⟨true, "low", "hi"⟩⟩

/-- POST body with no crop dates, used as round-trip witness input. -/
def sampleProfile : Api.FarmerProfile :=
  ⟨"Meera", "+917654321098",
    ⟨"Tamil Nadu", "Madurai", "Usilampatti", none, some 78⟩,
    ⟨3, "clay", "canal", [⟨"millet", 2, none, none⟩]⟩,
    ⟨false, "medium", "ta"⟩⟩

/-- Farm details of the second model set declaring one 2-acre crop on a
1-acre farm, used to exhibit the missing crop-area-sum check. -/
def overcommittedFarm : FarmerModels.FarmDetails :=
  ⟨⟨1, "acre", none⟩, none, none, FarmerModels.SoilType.sandy, none, none,
    FarmerModels.IrrigationType.rainfed, none, [], [],
    [⟨"rice", none, FarmerModels.CropCategory.cereals,
      FarmerModels.CropSeason.kharif, ⟨2, "acre", none⟩, none, none, none,
      none, none, false, none⟩],
    none, []⟩

end KM

/-! # Theorems -/

namespace KM

/-! ## Helper lemmas for the phone-validation characterization -/

theorem isMobilePart_parts {m : List Char} (h : isMobilePart m = true) :
    ∃ c rest, m = c :: rest ∧ '6' ≤ c ∧ c ≤ '9' ∧ rest.length = 9 ∧
      rest.all Char.isDigit = true := by
  match m with
  | [] => simp [isMobilePart] at h
  | c :: rest =>
    simp only [isMobilePart, Bool.and_eq_true, beq_iff_eq, decide_eq_true_eq] at h
    exact ⟨c, rest, rfl, h.1.1.1, h.1.1.2, h.1.2, h.2⟩

theorem isMobilePart_length {m : List Char} (h : isMobilePart m = true) : m.length = 10 := by
  obtain ⟨c, rest, hm, _, _, hr, _⟩ := isMobilePart_parts h
  subst hm; simp [hr]

theorem candidate_of_shape {c m : List Char} (hm : isMobilePart m = true)
    (hs : phoneSpecShape c m) : phoneMobileCandidate c = some m := by
  obtain ⟨d, rest, hmeq, hd6, hd9, hrlen, hdig⟩ := isMobilePart_parts hm
  have hd_ne_plus : d ≠ '+' := by
    intro h; subst h; exact absurd hd6 (by decide)
  rcases hs with h | h | h | h
  · subst h
    rw [phoneMobileCandidate]
    rw [show (3 : Nat) = (['+', '9', '1'] : List Char).length from rfl,
      List.take_left, List.drop_left]
    simp
  · subst h
    rw [phoneMobileCandidate]
    have h3 : ((['9', '1'] : List Char) ++ m).take 3 ≠ ['+', '9', '1'] := by
      subst hmeq; simp
    rw [if_neg h3]
    have h2 : ((['9', '1'] : List Char) ++ m).take 2 = ['9', '1'] := by
      rw [show (2 : Nat) = (['9', '1'] : List Char).length from rfl, List.take_left]
    have hlen : ((['9', '1'] : List Char) ++ m).length = 12 := by
      simp [isMobilePart_length hm]
    simp only [h2, hlen]
    rw [if_pos (by simp)]
    rw [show (2 : Nat) = (['9', '1'] : List Char).length from rfl, List.drop_left]
  · subst h
    rw [phoneMobileCandidate]
    have h3 : (('0' :: m).take 3) ≠ ['+', '9', '1'] := by subst hmeq; simp
    rw [if_neg h3]
    have h2 : ¬(('0' :: m).take 2 = ['9', '1'] ∧ ('0' :: m).length = 12) := by
      subst hmeq; simp
    rw [if_neg (by simp only [Bool.and_eq_true, decide_eq_true_eq, beq_iff_eq]; exact h2)]
    have h1 : ('0' :: m).take 1 = ['0'] := by simp
    have hlen : ('0' :: m).length = 11 := by simp [isMobilePart_length hm]
    rw [if_pos (by simp [h1, hlen])]
    simp
  · subst h
    rw [phoneMobileCandidate]
    subst hmeq
    have h3 : ((d :: rest).take 3) ≠ ['+', '9', '1'] := by
      intro hcontra
      have : d = '+' := by
        rcases rest with _ | ⟨a, rest'⟩ <;> simp_all
      exact hd_ne_plus this
    rw [if_neg h3]
    have hlen : (d :: rest).length = 10 := by simp [hrlen]
    rw [if_neg (by simp [hlen])]
    have hd_ne_zero : d ≠ '0' := by
      intro h; subst h; exact absurd hd6 (by decide)
    rw [if_neg (by simp [hd_ne_zero])]
    rw [if_pos (by simp [hlen])]

theorem shape_of_candidate {c m : List Char} (h : phoneMobileCandidate c = some m) :
    phoneSpecShape c m := by
  rw [phoneMobileCandidate] at h
  split_ifs at h with h1 h2 h3 h4
  · left
    have := c.take_append_drop 3
    rw [h1] at this
    simp only [Option.some.injEq] at h
    rw [← h, this]
  · right; left
    simp only [Bool.and_eq_true, decide_eq_true_eq, beq_iff_eq] at h2
    have := c.take_append_drop 2
    rw [h2.1] at this
    simp only [Option.some.injEq] at h
    rw [← h, this]
  · right; right; left
    simp only [Bool.and_eq_true, decide_eq_true_eq, beq_iff_eq] at h3
    have := c.take_append_drop 1
    rw [h3.1] at this
    simp only [Option.some.injEq] at h
    rw [← h, ← this]
    simp
  · right; right; right
    simp only [Option.some.injEq] at h
    exact h

theorem validate_phone_of_candidate_none {p : List Char} (hp : ¬p = [])
    (hc : phoneMobileCandidate (phoneClean p) = none) :
    validate_phone_number p = (false, none) := by
  rw [validate_phone_number, if_neg hp, hc]

theorem validate_phone_of_candidate_some {p m : List Char} (hp : ¬p = [])
    (hc : phoneMobileCandidate (phoneClean p) = some m) :
    validate_phone_number p =
      if isMobilePart m then (true, some (['+', '9', '1'] ++ m)) else (false, none) := by
  rw [validate_phone_number, if_neg hp, hc]

/-- C4: validate_phone_number accepts with a normalized value exactly when
its cleaned input is a valid 10-digit Indian mobile number bare, or
prefixed with plus-9-1, with 9-1 (12 digits), or with 0 (11 digits), and
the normalized value is then the identical plus-9-1 string; every rejected
input carries no normalized value. -/
theorem phone_validation_normalization (p n : List Char) :
    (validate_phone_number p = (true, some n) ↔
      ∃ m, isMobilePart m = true ∧ phoneSpecShape (phoneClean p) m ∧
        n = ['+', '9', '1'] ++ m) ∧
    ((validate_phone_number p).1 = false → (validate_phone_number p).2 = none) := by
  constructor
  · constructor
    · intro h
      by_cases hp : p = []
      · rw [validate_phone_number, if_pos hp] at h
        simp at h
      · rcases hc : phoneMobileCandidate (phoneClean p) with _ | m
        · rw [validate_phone_of_candidate_none hp hc] at h
          simp at h
        · rw [validate_phone_of_candidate_some hp hc] at h
          split_ifs at h with hmob
          · simp only [Prod.mk.injEq, true_and, Option.some.injEq] at h
            exact ⟨m, hmob, shape_of_candidate hc, h.symm⟩
          · simp at h
    · rintro ⟨m, hmob, hs, hn⟩
      have hp : p ≠ [] := by
        intro hcontra
        subst hcontra
        have hlen := isMobilePart_length hmob
        have hclean : phoneClean [] = [] := rfl
        rw [hclean] at hs
        rcases hs with h | h | h | h <;>
          (have hL := congrArg List.length h; simp [hlen] at hL)
      rw [validate_phone_of_candidate_some hp (candidate_of_shape hmob hs),
        if_pos hmob, hn]
  · intro hf
    by_cases hp : p = []
    · rw [validate_phone_number, if_pos hp]
    · rcases hc : phoneMobileCandidate (phoneClean p) with _ | m
      · rw [validate_phone_of_candidate_none hp hc]
      · by_cases hmob : isMobilePart m = true
        · rw [validate_phone_of_candidate_some hp hc, if_pos hmob] at hf
          simp at hf
        · rw [validate_phone_of_candidate_some hp hc, if_neg hmob]

/-- Witness for C4: the valid mobile number 9876543210 under the 0 prefix
normalizes to the plus-9-1 form. -/
theorem phone_validation_normalization_witness :
    validate_phone_number ("09876543210".toList) =
      (true, some ("+919876543210".toList)) :=
  (phone_validation_normalization ("09876543210".toList)
      ("+919876543210".toList)).1.mpr
    ⟨"9876543210".toList, by decide, Or.inr (Or.inr (Or.inl (by decide))), by decide⟩

/-- C5 (amended): a 12-digit string validates as true exactly when it is not
a single repeated digit and the Verhoeff walk over the multiplication and
permutation tables, applied right-to-left with columns cycling mod 8,
reduces to 0. -/
theorem aadhaar_validation_characterization (s : List Char)
    (h12 : s.length = 12) (hd : s.all Char.isDigit = true) :
    (validate_aadhaar_number s).1 = true ↔
      allSameChar s = false ∧ verhoeffWalk 0 0 (s.map charDigit).reverse = 0 := by
  have hs_ne : s ≠ [] := by intro h; subst h; simp at h12
  have hfilter : s.filter Char.isDigit = s :=
    List.filter_eq_self.mpr (by simpa [List.all_eq_true] using hd)
  rw [validate_aadhaar_number, if_neg hs_ne, hfilter]
  rw [if_neg (by simp [h12])]
  by_cases hsame : allSameChar s
  · rw [if_pos hsame]; simp [hsame]
  · rw [if_neg hsame]
    simp only [Bool.not_eq_true] at hsame
    by_cases hchk : verify_aadhaar_checksum (s.map charDigit)
    · rw [if_neg (by simp [hchk])]
      simp only [verify_aadhaar_checksum, beq_iff_eq] at hchk
      simp [hsame, hchk]
    · rw [if_pos (by simp [hchk])]
      simp only [verify_aadhaar_checksum, beq_iff_eq] at hchk
      simp [hchk]

/-- Witness for C5: the characterization applied to 499118665930, which
validates as true. -/
theorem aadhaar_validation_characterization_witness :
    (validate_aadhaar_number ("499118665930".toList)).1 = true ↔
      allSameChar ("499118665930".toList) = false ∧
        verhoeffWalk 0 0 (("499118665930".toList).map charDigit).reverse = 0 :=
  aadhaar_validation_characterization _ (by decide) (by decide)

/-- C5 counterexample: the specification's example 499118665932 is rejected
by the code — its Verhoeff walk reduces to 2, not 0. -/
theorem aadhaar_spec_example_rejected :
    validate_aadhaar_number ("499118665932".toList) = (false, none) ∧
      verhoeffWalk 0 0 (("499118665932".toList).map charDigit).reverse = 2 :=
  ⟨by decide, by decide⟩


/-- C9: with the default (absent) verify token of the configuration, the
verification endpoint answers 403 whatever mode, challenge and token the
caller supplies — the webhook can never be verified. -/
theorem webhook_unverifiable_without_token (mode challenge token : String) :
    verify_webhook defaultWhatsappVerifyToken mode challenge token =
      VerifyResult.forbidden := by
  simp [verify_webhook, defaultWhatsappVerifyToken, pyStrEqOpt]

/-- C6: with a configured verify token, the endpoint answers 200 with a body
exactly the supplied challenge precisely when the mode is subscribe and the
supplied token equals the configured one, and 403 in every other case. -/
theorem webhook_verification (t mode challenge token : String) :
    (verify_webhook (some t) mode challenge token = VerifyResult.ok challenge ↔
      mode = "subscribe" ∧ token = t) ∧
    (¬(mode = "subscribe" ∧ token = t) →
      verify_webhook (some t) mode challenge token = VerifyResult.forbidden) := by
  have hcond : ((mode == "subscribe") && pyStrEqOpt token (some t)) = true ↔
      (mode = "subscribe" ∧ token = t) := by
    simp [pyStrEqOpt]
  constructor
  · constructor
    · intro h
      by_cases hc : ((mode == "subscribe") && pyStrEqOpt token (some t)) = true
      · exact hcond.mp hc
      · rw [verify_webhook, if_neg hc] at h
        simp at h
    · intro h
      rw [verify_webhook, if_pos (hcond.mpr h)]
  · intro h
    rw [verify_webhook, if_neg (fun hc => h (hcond.mp hc))]

/-- Witness for C6: a matching subscribe request echoes its challenge. -/
theorem webhook_verification_witness :
    verify_webhook (some "tok") "subscribe" "chal" "tok" = VerifyResult.ok "chal" :=
  (webhook_verification "tok" "subscribe" "chal" "tok").1.mpr ⟨rfl, rfl⟩

/-- C7 (amended): both phone maskers are deterministic; the security-module
masker mask_phone_number depends only on the last four characters of its
input (it is lossy beyond them); the utils-module masker
mask_sensitive_data instead keeps everything except the last four
characters visible and stars those, for any input of length at least 10. -/
theorem phone_masking_behavior :
    (∀ p : List Char, mask_phone_number p = mask_phone_number p) ∧
    (∀ p q : List Char, p.drop (p.length - 4) = q.drop (q.length - 4) →
      mask_phone_number p = mask_phone_number q) ∧
    (∀ d : List Char, mask_sensitive_data_phone d = mask_sensitive_data_phone d) ∧
    (∀ d : List Char, 10 ≤ d.length →
      mask_sensitive_data_phone d = d.take (d.length - 4) ++ maskStars) := by
  refine ⟨fun p => rfl, ?_, fun d => rfl, ?_⟩
  · intro p q h
    have hl := congrArg List.length h
    simp only [List.length_drop] at hl
    by_cases hp4 : p.length < 4
    · have hq4 : q.length < 4 := by omega
      have hdp : p.drop (p.length - 4) = p := by
        have h0 : p.length - 4 = 0 := by omega
        rw [h0, List.drop_zero]
      have hdq : q.drop (q.length - 4) = q := by
        have h0 : q.length - 4 = 0 := by omega
        rw [h0, List.drop_zero]
      rw [hdp, hdq] at h
      rw [h]
    · have hq4 : ¬q.length < 4 := by omega
      rw [mask_phone_number, mask_phone_number, if_neg, if_neg, h]
      · simp only [Bool.or_eq_true, decide_eq_true_eq, not_or]
        refine ⟨?_, by omega⟩
        intro hq; subst hq; simp at hq4
      · simp only [Bool.or_eq_true, decide_eq_true_eq, not_or]
        refine ⟨?_, by omega⟩
        intro hp; subst hp; simp at hp4
  · intro d h10
    have hne : d ≠ [] := by
      intro hd; subst hd; simp at h10
    rw [mask_sensitive_data_phone, if_neg hne, if_pos h10]

/-- Witness for C7: two numbers sharing their final four characters mask
identically under mask_phone_number, and mask_sensitive_data on a phone of
length at least 10 stars exactly the last four characters. -/
theorem phone_masking_behavior_witness :
    mask_phone_number ("+919876543210".toList) =
      mask_phone_number ("+918888883210".toList) ∧
    mask_sensitive_data_phone ("+919876543210".toList) =
      "+91987654".toList ++ maskStars :=
  ⟨phone_masking_behavior.2.1 _ _ (by decide),
   phone_masking_behavior.2.2.2 _ (by decide)⟩

/-- C7 counterexample: mask_sensitive_data reveals the leading digits of a
phone number — two numbers sharing their last four digits mask to
different outputs, and the masked output keeps the nine leading characters
in clear. -/
theorem phone_masking_lossiness_counterexample :
    ("+919876543210".toList).drop 9 = ("+918888883210".toList).drop 9 ∧
    mask_sensitive_data_phone ("+919876543210".toList) ≠
      mask_sensitive_data_phone ("+918888883210".toList) ∧
    mask_sensitive_data_phone ("+919876543210".toList) = "+91987654****".toList :=
  ⟨by decide, by decide, by decide⟩

/-- C10: truncate_text returns its input unchanged whenever the input
length is at most max_length, and otherwise returns a string of length at
most max_length, for every suffix. -/
theorem truncate_text_respects_bound (text suffix : List Char) (maxLength : Nat) :
    (text.length ≤ maxLength → truncate_text text maxLength suffix = text) ∧
    (maxLength < text.length → (truncate_text text maxLength suffix).length ≤ maxLength) := by
  constructor
  · intro h
    rw [truncate_text, if_pos]
    simp [h]
  · intro h
    rw [truncate_text, if_neg]
    · by_cases hs : suffix.length < maxLength
      · rw [if_pos hs]
        by_cases hw : ((maxLength / 2 : Nat) : Int) <
            rfindSpace (text.take (maxLength - suffix.length))
        · rw [if_pos hw]
          have hidx : (0 : Int) ≤
              ((text.take (maxLength - suffix.length)).reverse.indexOf ' ' : Int) :=
            Int.ofNat_nonneg _
          have hseg : (text.take (maxLength - suffix.length)).length =
              min (maxLength - suffix.length) text.length := List.length_take _ _
          have hrf_le : rfindSpace (text.take (maxLength - suffix.length)) ≤
              ((text.take (maxLength - suffix.length)).length : Int) - 1 := by
            rw [rfindSpace]; omega
          have hrf_nonneg : (0 : Int) ≤
              rfindSpace (text.take (maxLength - suffix.length)) := by
            have : (0 : Int) ≤ ((maxLength / 2 : Nat) : Int) := Int.ofNat_nonneg _
            omega
          have htn : ((rfindSpace (text.take (maxLength - suffix.length))).toNat : Int) =
              rfindSpace (text.take (maxLength - suffix.length)) :=
            Int.toNat_of_nonneg hrf_nonneg
          simp only [List.length_append, List.length_take]
          rw [hseg] at hrf_le
          omega
        · rw [if_neg hw]
          simp only [List.length_append, List.length_take]
          omega
      · rw [if_neg hs]
        simp only [List.length_take]
        omega
    · simp only [Bool.or_eq_true, decide_eq_true_eq, not_or]
      constructor
      · intro ht; subst ht; simp at h
      · omega

/-- Witness for C10: a short text is returned unchanged and a long text is
truncated within the bound. -/
theorem truncate_text_respects_bound_witness :
    truncate_text ("hello".toList) 10 ("...".toList) = "hello".toList ∧
    (truncate_text ("hello world, quite a long text".toList) 10 ("...".toList)).length ≤ 10 :=
  ⟨(truncate_text_respects_bound _ _ _).1 (by decide),
   (truncate_text_respects_bound _ _ _).2 (by decide)⟩


/-! ## Helper lemmas for the phone patterns of the farmers API -/

theorem digit_of_interval {c : Char} (h6 : '6' ≤ c) (h9 : c ≤ '9') : c.isDigit = true := by
  have h48 : ('0' : Char) ≤ c := le_trans (by decide) h6
  simp only [Char.isDigit, Bool.and_eq_true, decide_eq_true_eq, ge_iff_le]
  exact ⟨h48, h9⟩

theorem matchesIndianMobile_parts {p : List Char}
    (h : Api.matchesIndianMobile p = true) :
    ∃ rest, p = '+' :: '9' :: '1' :: rest ∧ isMobilePart rest = true := by
  rw [Api.matchesIndianMobile.eq_def] at h
  split at h
  · exact ⟨_, rfl, h⟩
  · simp at h

theorem indian_mobile_matches_e164 (p : List Char)
    (h : Api.matchesIndianMobile p = true) : Api.matchesE164 p = true := by
  obtain ⟨rest, hp, h⟩ := matchesIndianMobile_parts h
  subst hp
  obtain ⟨c, r, hr, h6, h9, hlen, hdigits⟩ := isMobilePart_parts h
  subst hr
  rw [Api.matchesE164]
  simp only [Bool.and_eq_true, decide_eq_true_eq, List.all_eq_true]
  refine ⟨⟨by decide, ?_⟩, ?_⟩
  · simp [hlen]
  · intro x hx
    simp only [List.mem_cons] at hx
    rcases hx with h1 | h2 | hm
    · subst h1; decide
    · subst h2; exact digit_of_interval h6 h9
    · rw [List.all_eq_true] at hdigits
      exact hdigits x hm

/-- C2 (amended): the mounted create endpoint validates the phone number
against the permissive pattern only (optional plus, a digit 1-9, then one
to fourteen digits): every accepted profile's phone matches that pattern,
and every string of the strict Indian-mobile shape matches it too, so
Indian mobiles are accepted — but the strict shape itself is enforced by
the ContactInfo/PersonalInfo models, not by creation. -/
theorem create_phone_validation (fp : Api.FarmerProfile) (p : List Char) :
    (Api.validFarmerProfile fp = true → Api.matchesE164 fp.phone_number.toList = true) ∧
    (Api.matchesIndianMobile p = true → Api.matchesE164 p = true) := by
  constructor
  · intro h
    simp only [Api.validFarmerProfile, Bool.and_eq_true] at h
    exact h.1.1
  · exact indian_mobile_matches_e164 p

/-- Witness for C2: an Indian mobile number passes the create pattern. -/
theorem create_phone_validation_witness :
    Api.matchesE164 ("+919876543210".toList) = true :=
  (create_phone_validation
      ⟨"a", "1", ⟨"s", "d", "v", none, none⟩, ⟨1, "s", "i", []⟩,
        ⟨false, "medium", "hi"⟩⟩
      ("+919876543210".toList)).2 (by decide)

/-- C2 counterexample: the profile body with phone 12345 passes the create
validation although 12345 is not of the Indian plus-9-1 mobile shape,
refuting that creation accepts only Indian-shaped phone numbers. -/
theorem create_phone_validation_counterexample :
    Api.validFarmerProfile
      ⟨"Ravi", "12345",
        ⟨"Karnataka", "Mysuru", "Hosahalli", none, none⟩,
        ⟨2, "loamy", "drip", []⟩,
        ⟨false, "medium", "hi"⟩⟩ = true ∧
    Api.matchesIndianMobile ("12345".toList) = false :=
  ⟨by decide, by decide⟩

/-- C3 (amended): in the core model set, a farm-details value whose crop
areas sum to strictly more than the total land area always fails
validation, and one whose crop areas sum to exactly the total succeeds
whenever its other field constraints hold; the second model set performs
no crop-area-sum check at all (see the counterexample). -/
theorem crop_area_sum_invariant :
    (∀ fd : CoreModels.FarmDetails,
      fd.total_land_area < CoreModels.cropsAreaSum fd.crops →
      CoreModels.validFarmDetails fd = false) ∧
    (∀ fd : CoreModels.FarmDetails,
      CoreModels.cropsAreaSum fd.crops = fd.total_land_area →
      0 < fd.total_land_area → fd.total_land_area ≤ 10000 →
      fd.crops.all CoreModels.validCropInfo = true →
      CoreModels.validWaterSource fd.water_source = true →
      CoreModels.validFarmDetails fd = true) := by
  constructor
  · intro fd h
    by_cases hemp : fd.crops.isEmpty
    · have hsum : CoreModels.cropsAreaSum fd.crops = 0 := by
        rw [List.isEmpty_iff] at hemp
        rw [CoreModels.cropsAreaSum, hemp]
        rfl
      rw [hsum] at h
      have hpos : decide (0 < fd.total_land_area) = false := by
        simp only [decide_eq_false_iff_not, not_lt]
        linarith
      simp [CoreModels.validFarmDetails, hpos]
    · have hle : decide (CoreModels.cropsAreaSum fd.crops ≤ fd.total_land_area) = false := by
        simp only [decide_eq_false_iff_not, not_le]
        exact h
      simp only [Bool.not_eq_true] at hemp
      simp [CoreModels.validFarmDetails, hemp, hle]
  · intro fd hsum hpos hle hcrops hwater
    have hcond : CoreModels.cropsAreaSum fd.crops ≤ fd.total_land_area := le_of_eq hsum
    simp [CoreModels.validFarmDetails, hpos, hle, hcrops, hwater, hcond]

/-- Witness for C3: a 1-acre core-model farm with one 1-acre crop validates
(areas summing to exactly the total), and the same farm with a 2-acre crop
is rejected. -/
theorem crop_area_sum_invariant_witness :
    CoreModels.validFarmDetails
      ⟨1, CoreModels.SoilType.sandy, CoreModels.IrrigationType.drip,
        [⟨"rice", 1, none, none, none⟩], none, []⟩ = true ∧
    CoreModels.validFarmDetails
      ⟨1, CoreModels.SoilType.sandy, CoreModels.IrrigationType.drip,
        [⟨"rice", 2, none, none, none⟩], none, []⟩ = false :=
  ⟨crop_area_sum_invariant.2 _ (by simp [CoreModels.cropsAreaSum]) (by norm_num)
      (by norm_num) (by decide) (by decide),
   crop_area_sum_invariant.1 _ (by norm_num [CoreModels.cropsAreaSum])⟩

/-- C3 counterexample: in the second model set a farm declaring one 2-acre
crop on a 1-acre farm constructs successfully — no validation error is
raised although the crop areas sum to more than the total land area. -/
theorem crop_area_sum_unchecked_counterexample :
    FarmerModels.validFarmDetails overcommittedFarm = true ∧
    overcommittedFarm.total_land_area.value <
      FarmerModels.cropsAreaSum overcommittedFarm.crops :=
  ⟨by decide, by norm_num [overcommittedFarm, FarmerModels.cropsAreaSum]⟩

/-- C1 (amended): for every profile accepted by the POST validation, the
GET of the generated id against the store state the create produced
returns 200 with the submitted name, phone, location (including optional
coordinates), preferences, farm details up to per-crop date erasure (the
stored envelope drops each crop's planting and harvest dates, which come
back as None), and created_at equal to updated_at (the shared creation
time). -/
theorem create_then_get_roundtrip (p : Api.FarmerProfile) (fid : String) (now : Int)
    (_hv : Api.validFarmerProfile p = true) :
    Api.get_farmer_profile (Api.storeAfterCreate (Api.createItem p fid now)) fid =
      Except.ok ⟨fid, p.name, p.phone_number, p.location,
        ⟨p.farm_details.total_land_area, p.farm_details.soil_type,
          p.farm_details.irrigation_type,
          p.farm_details.crops.map Api.eraseCropDates⟩,
        p.preferences, now, now⟩ := by
  simp [Api.get_farmer_profile, Api.storeAfterCreate, Api.createItem,
    Api.parseStoredCrop, Api.eraseCropDates, List.map_map, Function.comp]

/-- Witness for C1: the round-trip applied to a concrete valid profile. -/
theorem create_then_get_roundtrip_witness :
    Api.get_farmer_profile
        (Api.storeAfterCreate (Api.createItem sampleProfile "f2" 7)) "f2" =
      Except.ok ⟨"f2", sampleProfile.name, sampleProfile.phone_number,
        sampleProfile.location,
        ⟨sampleProfile.farm_details.total_land_area,
          sampleProfile.farm_details.soil_type,
          sampleProfile.farm_details.irrigation_type,
          sampleProfile.farm_details.crops.map Api.eraseCropDates⟩,
        sampleProfile.preferences, 7, 7⟩ :=
  create_then_get_roundtrip sampleProfile "f2" 7 (by decide)

/-- C1 counterexample: a valid profile whose crop declares planting and
harvest dates does not round-trip field-for-field — the GET returns the
crop with both dates None, so the returned crop list differs from the
submitted one. -/
theorem create_then_get_date_loss_counterexample :
    Api.validFarmerProfile datedCropProfile = true ∧
    Api.get_farmer_profile
        (Api.storeAfterCreate (Api.createItem datedCropProfile "f1" 0)) "f1" =
      Except.ok ⟨"f1", "Ravi", "+919876543210",
        ⟨"Karnataka", "Mysuru", "Hosahalli", some 12, some 76⟩,
        ⟨2, "loamy", "drip", [⟨"rice", 1, none, none⟩]⟩,
        ⟨true, "low", "hi"⟩, 0, 0⟩ ∧
    ([⟨"rice", 1, none, none⟩] : List Api.CropInfo) ≠
      datedCropProfile.farm_details.crops :=
  ⟨by decide, by rfl, by decide⟩

/-! ## Helper lemma for the encryption round-trip -/

theorem decryptDictVal_enc_vstr {K C J : Type} (S : Enc.FernetScheme K C)
    (L : Enc.JsonLib J) (k : K) (t : String) (hl : L.loads t = none) :
    Enc.decryptDictVal S L k (Enc.encryptVal S k (Enc.PlainVal.vstr t)) =
      Enc.DecVal.plain (Enc.PlainVal.vstr t) := by
  simp [Enc.decryptDictVal, Enc.encryptVal, S.dec_enc, hl]

/-- C8 (amended): under the Fernet contract, encrypting any string with a
key and decrypting with the same key returns it exactly, while decrypting
with a different key fails with an encryption error rather than returning
a value; for any JSON parser at the json.loads boundary, the dictionary
round-trip through encrypt_dict/decrypt_dict preserves deep equality only
for dictionaries whose string values that parser fails to parse (a value
json.loads parses comes back JSON-parsed, not deeply equal — see the
counterexample). -/
theorem encryption_roundtrip {K C J : Type} (S : Enc.FernetScheme K C)
    (L : Enc.JsonLib J) (k k' : K)
    (s : String) (d : List (String × Enc.PlainVal)) (hk : k ≠ k')
    (hd : ∀ kv ∈ d, ∃ t, kv.2 = Enc.PlainVal.vstr t ∧ L.loads t = none) :
    Enc.decryptStr S k (Enc.encryptVal S k (Enc.PlainVal.vstr s)) = some s ∧
    Enc.decryptStr S k' (Enc.encryptVal S k (Enc.PlainVal.vstr s)) = none ∧
    Enc.decrypt_dict S L k (Enc.encrypt_dict S k d) = Enc.plainDict d := by
  refine ⟨S.dec_enc k s, S.dec_wrong k k' s hk, ?_⟩
  induction d with
  | nil => rfl
  | cons kv rest ih =>
    obtain ⟨t, hv, hl⟩ := hd kv (List.mem_cons_self kv rest)
    have hrest : Enc.decrypt_dict S L k (Enc.encrypt_dict S k rest) =
        Enc.plainDict rest :=
      ih (fun x hx => hd x (List.mem_cons_of_mem kv hx))
    simp only [Enc.encrypt_dict, Enc.decrypt_dict, Enc.plainDict, List.map_cons,
      List.map_map] at hrest ⊢
    simp only [List.cons.injEq, Prod.mk.injEq, true_and]
    refine ⟨?_, hrest⟩
    rw [hv]
    exact decryptDictVal_enc_vstr S L k t hl

/-- Witness for C8: the round-trip under the concrete pair cipher with keys
0 and 1, the integer-literal parser instance, the string hi, and a
dictionary with a string value that does not parse as JSON. -/
theorem encryption_roundtrip_witness :
    Enc.decryptStr Enc.pairScheme 0
        (Enc.encryptVal Enc.pairScheme 0 (Enc.PlainVal.vstr "hi")) = some "hi" ∧
    Enc.decryptStr Enc.pairScheme 1
        (Enc.encryptVal Enc.pairScheme 0 (Enc.PlainVal.vstr "hi")) = none ∧
    Enc.decrypt_dict Enc.pairScheme Enc.intJsonLib 0
        (Enc.encrypt_dict Enc.pairScheme 0 [("a", Enc.PlainVal.vstr "x")]) =
      Enc.plainDict [("a", Enc.PlainVal.vstr "x")] :=
  encryption_roundtrip Enc.pairScheme Enc.intJsonLib 0 1 "hi"
    [("a", Enc.PlainVal.vstr "x")]
    (by decide)
    (by
      intro kv hkv
      simp only [List.mem_singleton] at hkv
      subst hkv
      exact ⟨"x", rfl, by decide⟩)

/-- C8 counterexample: a dictionary whose value is the string 123 does not
round-trip deeply equal — decrypt_dict returns the JSON-parsed number 123
in its place, under a cipher satisfying the Fernet contract and a parser
agreeing with json.loads at the evaluated string. -/
theorem encryption_dict_roundtrip_counterexample :
    Enc.decrypt_dict Enc.pairScheme Enc.intJsonLib 0
        (Enc.encrypt_dict Enc.pairScheme 0 [("a", Enc.PlainVal.vstr "123")]) =
      [("a", Enc.DecVal.parsed (123 : Int))] ∧
    ([("a", Enc.DecVal.parsed (123 : Int))] :
        List (String × Enc.DecVal Int (Nat × String))) ≠
      Enc.plainDict [("a", Enc.PlainVal.vstr "123")] :=
  ⟨by decide, by decide⟩

end KM
